import Mathlib

/-!
Verification of the spreadsheet FDW scan adapter (`src/src/lib.rs`).

The development shallowly embeds the adapter:
* `Json` models `serde_json::Value`; JSON numbers are modelled as rationals
  (`ℚ`), which covers every numeric literal the claims mention; float
  saturation/NaN corner cases are outside the claims.
* `Json.pointer` models `serde_json::Value::pointer`, taking the path already
  split at the slashes (the source builds paths with `format!`, whose
  interpolated pieces never contain a slash, so splitting is lossless).
* `SpreadsheetsFdw` is the adapter state struct (`base_url`, `src_rows`,
  `src_idx`).
* The FDW trait methods `begin_scan`, `iter_scan`, `re_scan`, `end_scan`,
  `insert`, `update`, `delete` become explicit state-passing functions.
  The HTTP transport (`http::get`) and the JSON parser
  (`serde_json::from_str`) are collaborators outside the core, so they are
  passed as function parameters (`fetch`, `parse`); theorems quantify over
  them.  `utils::report_info` is observability only and has no state effect.
* A Rust `FdwResult`/`FdwError` is `Except String`; code that can panic
  (`Option::unwrap`) returns `RunResult`, whose `panic` constructor records a
  Rust panic (trap) as distinct from a returned error.
-/

set_option autoImplicit false

namespace SheetsFdw

/-- Model of `serde_json::Value`.  Objects are association lists; `serde_json`
maps have unique keys, which first-match lookup respects. -/
inductive Json where
  | null
  | bool (b : Bool)
  | num (q : ℚ)
  | str (s : String)
  | arr (xs : List Json)
  | obj (kvs : List (String × Json))

/-- Model of `Value::as_f64`: every JSON number (i64/u64/f64 alike) converts. -/
def Json.as_f64 : Json → Option ℚ
  | .num q => some q
  | _ => none

/-- Model of `Value::as_str`. -/
def Json.as_str : Json → Option String
  | .str s => some s
  | _ => none

/-- Model of `Value::as_array`. -/
def Json.as_array : Json → Option (List Json)
  | .arr xs => some xs
  | _ => none

/-- The value of a decimal digit, `None` for any other character (the
failure branch of `usize::from_str`). -/
def char_digit (c : Char) : Option Nat :=
  if Char.ofNat 48 ≤ c ∧ c ≤ Char.ofNat 57 then some (c.toNat - 48) else none

/-- Accumulator loop of decimal parsing. -/
def parse_digits_aux : Nat → List Char → Option Nat
  | acc, [] => some acc
  | acc, c :: cs =>
    match char_digit c with
    | none => none
    | some d => parse_digits_aux (acc * 10 + d) cs

/-- Model of `usize::from_str` on a token: at least one digit, digits only. -/
def parse_digits : List Char → Option Nat
  | [] => none
  | c :: cs => parse_digits_aux 0 (c :: cs)

/-- Model of the `parse_index` helper in `serde_json` for pointer tokens:
it rejects a leading plus sign or a superfluous leading zero, otherwise
parses a decimal index. -/
def parse_index (s : String) : Option Nat :=
  match s.data with
  | [] => none
  | c :: cs =>
    if c = Char.ofNat 43 then none
    else if c = Char.ofNat 48 ∧ cs ≠ [] then none
    else parse_digits (c :: cs)

/-- One step of `Value::pointer`: object lookup by key, array lookup by parsed
index, anything else fails. -/
def Json.token_access (j : Json) (tok : String) : Option Json :=
  match j with
  | .obj kvs => List.lookup tok kvs
  | .arr xs => (parse_index tok).bind fun i => xs.get? i
  | _ => none

/-- Model of `Value::pointer`, on a pre-split token list. -/
def Json.pointer (j : Json) : List String → Option Json
  | [] => some j
  | t :: ts =>
    match j.token_access t with
    | none => none
    | some v => v.pointer ts

/-- The fragment of the host `TypeOid` enum that the adapter inspects: the match
in `iter_scan` distinguishes `I64`, `String`, and everything else. -/
inductive TypeOid where
  | bool
  | i8
  | i16
  | i32
  | i64
  | f32
  | f64
  | numeric
  | date
  | timestamp
  | timestamptz
  | json
  | string
  deriving DecidableEq, Repr

/-- The host `Cell` variants the adapter constructs (`Cell::I64`,
`Cell::String`). -/
inductive Cell where
  | i64 (v : Int)
  | str (s : String)
  deriving DecidableEq, Repr

/-- One target column descriptor: `tgt_col.num()`, `tgt_col.name()`,
`tgt_col.type_oid()`.  Ordinals are 1-based per the host contract. -/
structure Column where
  num : Nat
  name : String
  type_oid : TypeOid
  deriving DecidableEq, Repr

/-- The adapter state struct `SpreadsheetsFdw`. -/
structure SpreadsheetsFdw where
  base_url : String
  src_rows : List Json
  src_idx : Nat

/-- Outcome of code that may return normally, return an error string, or
panic (a Rust `unwrap` on `None`); a panic aborts rather than producing an
`FdwError`. -/
inductive RunResult (α : Type) where
  | ok (a : α)
  | err (e : String)
  | panic
  deriving DecidableEq, Repr

/-- Model of `fn init`: a fresh default instance whose `base_url` comes from the
server option, defaulting to the Google endpoint
(`opts.require_or("base_url", ...)`); buffer empty, cursor zero. -/
def init (base_url_opt : Option String) : SpreadsheetsFdw :=
  { base_url := base_url_opt.getD "https://docs.google.com/spreadsheets/d"
    src_rows := []
    src_idx := 0 }

/-- The anti-hijacking envelope prefix, the 5 bytes `)]}` then an apostrophe
then a newline (given by code points to keep the literal unambiguous). -/
def envelope_magic : List Char :=
  [Char.ofNat 41, Char.ofNat 93, Char.ofNat 125, Char.ofNat 39, Char.ofNat 10]

/-- Model of `str::strip_prefix`: the remainder after the prefix, when
the string starts with it.  Bodies are modelled as character lists. -/
def strip_envelope : List Char → List Char → Option (List Char)
  | [], s => some s
  | _ :: _, [] => none
  | p :: ps, c :: cs => if c = p then strip_envelope ps cs else none

/-- HTTP method of the emitted request (`http::Method`). -/
inductive Method where
  | get
  | post
  | put
  | patch
  | delete
  deriving DecidableEq, Repr

/-- The `http::Request` struct fields the adapter fills in. -/
structure Request where
  method : Method
  url : String
  headers : List (String × String)
  body : String
  deriving DecidableEq, Repr

/-- URL assembly in `begin_scan`: the first `format!` binding is immediately
shadowed by the `match` on `sheet_id`, so only the `match` is effective. -/
def build_url (base_url spread_sheet_id : String) (sheet_id : Option String) :
    String :=
  match sheet_id with
  | some g =>
      base_url ++ "/" ++ spread_sheet_id ++ "/gviz/tq?gid=" ++ g ++
        "&tqx=out:json"
  | none => base_url ++ "/" ++ spread_sheet_id ++ "/gviz/tq?tqx=out:json"

/-- The request `begin_scan` hands to `http::get`: GET, the assembled URL,
the two fixed headers, empty body (`String::default()`). -/
def build_request (base_url spread_sheet_id : String)
    (sheet_id : Option String) : Request :=
  { method := Method.get
    url := build_url base_url spread_sheet_id sheet_id
    headers :=
      [("user-agent", "Sheets FDW"), ("x-datasource-auth", "true")]
    body := "" }

/-- Envelope handling in `begin_scan`: the body must begin with the 5-byte
envelope magic, else `ok_or` produces the error string `invalid response`;
the remainder is handed to `serde_json::from_str`, whose failure is mapped
to its message by `map_err`.  The parser is the external collaborator
`parse`, already returning its error as a string. -/
def process_body (parse : List Char → Except String Json)
    (body : List Char) : Except String Json :=
  match strip_envelope envelope_magic body with
  | none => Except.error "invalid response"
  | some rest => parse rest

/-- Row extraction in `begin_scan`:
`resp_json.pointer("/table/rows").ok_or("cannot get rows from response")
  .map(|v| v.as_array().unwrap().to_owned())?`.
An absent pointer is the returned error; a present non-array value makes
`as_array()` return `None` and the `unwrap()` panic. -/
def extract_rows (resp_json : Json) : RunResult (List Json) :=
  match resp_json.pointer ["table", "rows"] with
  | none => RunResult.err "cannot get rows from response"
  | some v =>
    match v.as_array with
    | none => RunResult.panic
    | some xs => RunResult.ok xs

/-- Model of `fn begin_scan`.  `spread_sheet_id` and `sheet_id` are the table options
(`opts.require`/`opts.get`), supplied by the host; `fetch` is `http::get`
returning the response body; `parse` is `serde_json::from_str`.  On any
early exit (`?`) the state is unchanged; on success the extracted rows are
stored.  `utils::report_info` only logs.  Note that `src_idx` is never
written. -/
def begin_scan (fetch : Request → Except String (List Char))
    (parse : List Char → Except String Json)
    (spread_sheet_id : String) (sheet_id : Option String)
    (this : SpreadsheetsFdw) : RunResult Unit × SpreadsheetsFdw :=
  let req := build_request this.base_url spread_sheet_id sheet_id
  match fetch req with
  | Except.error e => (RunResult.err e, this)
  | Except.ok body =>
    match process_body parse body with
    | Except.error e => (RunResult.err e, this)
    | Except.ok resp_json =>
      match extract_rows resp_json with
      | RunResult.err e => (RunResult.err e, this)
      | RunResult.panic => (RunResult.panic, this)
      | RunResult.ok rows =>
          (RunResult.ok (), { this with src_rows := rows })

/-- Rust `f64 as i64`: truncation toward zero, expressed on the rational
model as T-division of numerator by denominator. -/
def f64_as_i64 (v : ℚ) : Int :=
  Int.tdiv v.num v.den

/-- Model of one iteration of the column loop in `iter_scan`: look up
`/c/{num - 1}/v` in the source row; absent means an absent target cell,
present means coercion by `type_oid` where any type other than `I64` or
`String` is the unsupported-column error. -/
def map_cell (tgt_col : Column) (src_row : Json) : Except String (Option Cell) :=
  match src_row.pointer ["c", Nat.repr (tgt_col.num - 1), "v"] with
  | some src =>
    match tgt_col.type_oid with
    | TypeOid.i64 => Except.ok ((src.as_f64).map fun v => Cell.i64 (f64_as_i64 v))
    | TypeOid.string => Except.ok ((src.as_str).map fun v => Cell.str v)
    | _ =>
        Except.error ("column " ++ tgt_col.name ++ " data type is not supported")
  | none => Except.ok none

/-- The whole column loop of `iter_scan`: each target cell is pushed to the
host row in order; the first failing column aborts with its error (the host
discards cells pushed before the failure). -/
def project_row (cols : List Column) (src_row : Json) :
    Except String (List (Option Cell)) :=
  match cols with
  | [] => Except.ok []
  | c :: cs =>
    match map_cell c src_row with
    | Except.error e => Except.error e
    | Except.ok cell =>
      match project_row cs src_row with
      | Except.error e => Except.error e
      | Except.ok rest => Except.ok (cell :: rest)

/-- Model of `fn iter_scan`.  Returns `Ok(None)` once `src_idx >= src_rows.len()`;
otherwise projects the current source row through the column loop and, on
success, advances the cursor and reports a produced row (the source returns
`Ok(Some(0))` with the cells written into the host row; the model returns
those cells in place of the `0`).  The `getD` default is unreachable: the
index is in bounds in this branch. -/
def iter_scan (cols : List Column) (this : SpreadsheetsFdw) :
    Except String (Option (List (Option Cell))) × SpreadsheetsFdw :=
  if this.src_rows.length ≤ this.src_idx then
    (Except.ok none, this)
  else
    match project_row cols (this.src_rows.getD this.src_idx Json.null) with
    | Except.error e => (Except.error e, this)
    | Except.ok tgt =>
        (Except.ok (some tgt), { this with src_idx := this.src_idx + 1 })

/-- Model of `fn re_scan`: always the unsupported error, state untouched. -/
def re_scan (this : SpreadsheetsFdw) :
    Except String Unit × SpreadsheetsFdw :=
  (Except.error "re_scan on foreign table is not supported", this)

/-- Model of `fn end_scan`: `src_rows.clear()` then `Ok(())`.  Note that `src_idx` is
not reset. -/
def end_scan (this : SpreadsheetsFdw) :
    Except String Unit × SpreadsheetsFdw :=
  (Except.ok (), { this with src_rows := [] })

/-- Model of `fn begin_modify`: always an error, state untouched. -/
def begin_modify (this : SpreadsheetsFdw) :
    Except String Unit × SpreadsheetsFdw :=
  (Except.error "modify on foreign table is not supported", this)

/-- Model of `fn insert`: accepted as a no-op (`Ok(())`), ignoring its row. -/
def insert (this : SpreadsheetsFdw) (_row : List (Option Cell)) :
    Except String Unit × SpreadsheetsFdw :=
  (Except.ok (), this)

/-- Model of `fn update`: accepted as a no-op, ignoring row id and row. -/
def update (this : SpreadsheetsFdw) (_rowid : Cell)
    (_row : List (Option Cell)) : Except String Unit × SpreadsheetsFdw :=
  (Except.ok (), this)

/-- Model of `fn delete`: accepted as a no-op, ignoring the row id. -/
def delete (this : SpreadsheetsFdw) (_rowid : Cell) :
    Except String Unit × SpreadsheetsFdw :=
  (Except.ok (), this)

/-- Model of `fn end_modify`: a no-op. -/
def end_modify (this : SpreadsheetsFdw) :
    Except String Unit × SpreadsheetsFdw :=
  (Except.ok (), this)

/-- The outputs of the first `n` successive `iter_scan` calls from a given
state, threading the state from call to call. -/
def scan_outputs (cols : List Column) (s : SpreadsheetsFdw) :
    Nat → List (Except String (Option (List (Option Cell))))
  | 0 => []
  | n + 1 =>
    (iter_scan cols s).1 :: scan_outputs cols (iter_scan cols s).2 n

/-- A one-cell source row whose single cell holds the given number. -/
def row_num (q : ℚ) : Json :=
  Json.obj [("c", Json.arr [Json.obj [("v", Json.num q)]])]

/-- A one-cell source row whose single cell holds the given string. -/
def row_str (s : String) : Json :=
  Json.obj [("c", Json.arr [Json.obj [("v", Json.str s)]])]

/-- A response document holding the given rows at `table.rows`. -/
def doc_of_rows (rows : List Json) : Json :=
  Json.obj [("table", Json.obj [("rows", Json.arr rows)])]

/-- A textual target column at ordinal 1. -/
def text_col : Column :=
  { num := 1, name := "name", type_oid := TypeOid.string }

/-- A transport stub whose response body is the bare envelope prefix (the
parser stub below ignores the body anyway). -/
def stub_fetch : Request → Except String (List Char) :=
  fun _ => Except.ok envelope_magic

/-- A parser stub producing a fixed one-row document. -/
def parse_one_row : List Char → Except String Json :=
  fun _ => Except.ok (doc_of_rows [row_str "Old"])

/-- A parser stub producing a fixed two-row document (a fresh fetch). -/
def parse_two_rows : List Char → Except String Json :=
  fun _ => Except.ok (doc_of_rows [row_str "Alice", row_str "Bob"])

end SheetsFdw

deriving instance DecidableEq for Except

namespace SheetsFdw

/-! ## Claim theorems -/

/-- Claim C10: no write-path or rescan operation alters the adapter state:
`re_scan` fails with the explicit not-supported error and returns the state
unchanged, while `insert`, `update` and `delete` succeed as no-ops with the
state (base URL, buffer and cursor) identical before and after. -/
theorem c10_write_path_is_inert (s : SpreadsheetsFdw) (rowid : Cell)
    (row : List (Option Cell)) :
    re_scan s = (Except.error "re_scan on foreign table is not supported", s) ∧
    insert s row = (Except.ok (), s) ∧
    update s rowid row = (Except.ok (), s) ∧
    delete s rowid = (Except.ok (), s) :=
  ⟨rfl, rfl, rfl, rfl⟩

/-- Claim C6: the request emitted by `begin_scan` is a GET to
`{base_url}/{id}/gviz/tq?tqx=out:json` without a sheet id and to
`{base_url}/{id}/gviz/tq?gid={g}&tqx=out:json` with one, carrying exactly
the headers `user-agent: Sheets FDW` and `x-datasource-auth: true` and an
empty body; moreover `begin_scan` consults the transport only at that one
request. -/
theorem c6_request_shape (base sid g : String) :
    build_request base sid none =
      { method := Method.get
        url := base ++ "/" ++ sid ++ "/gviz/tq?tqx=out:json"
        headers := [("user-agent", "Sheets FDW"), ("x-datasource-auth", "true")]
        body := "" } ∧
    build_request base sid (some g) =
      { method := Method.get
        url := base ++ "/" ++ sid ++ "/gviz/tq?gid=" ++ g ++ "&tqx=out:json"
        headers := [("user-agent", "Sheets FDW"), ("x-datasource-auth", "true")]
        body := "" } ∧
    (∀ (fetch1 fetch2 : Request → Except String (List Char))
        (parse : List Char → Except String Json) (gid : Option String)
        (s : SpreadsheetsFdw),
      fetch1 (build_request s.base_url sid gid) =
          fetch2 (build_request s.base_url sid gid) →
        begin_scan fetch1 parse sid gid s = begin_scan fetch2 parse sid gid s) := by
  refine ⟨rfl, rfl, ?_⟩
  intro fetch1 fetch2 parse gid s h
  simp only [begin_scan]
  rw [h]

/-- Witness for claim C6 at concrete inputs: the two URL scenarios from the
spec, and transport-dependence only through the emitted request. -/
theorem c6_witness :
    (build_request "https://docs.google.com/spreadsheets/d" "abc123" none).url =
      "https://docs.google.com/spreadsheets/d/abc123/gviz/tq?tqx=out:json" ∧
    (build_request "https://docs.google.com/spreadsheets/d" "abc123"
        (some "2")).url =
      "https://docs.google.com/spreadsheets/d/abc123/gviz/tq?gid=2&tqx=out:json" ∧
    begin_scan stub_fetch parse_one_row "abc123" none (init none) =
      begin_scan (fun _ => Except.ok envelope_magic) parse_one_row "abc123" none
        (init none) := by
  refine ⟨?_, ?_, ?_⟩
  · rw [(c6_request_shape "https://docs.google.com/spreadsheets/d" "abc123" "2").1]
    decide
  · rw [(c6_request_shape "https://docs.google.com/spreadsheets/d" "abc123" "2").2.1]
    decide
  · exact (c6_request_shape "https://docs.google.com/spreadsheets/d" "abc123" "2").2.2
      stub_fetch (fun _ => Except.ok envelope_magic) parse_one_row none (init none) rfl

/-- Claim C2 is violated by the code (the spec is the stated intent:
`end()` "clears the buffer and cursor").  After a scan that consumed one row,
the state satisfies `cursor ≤ len(buffer)`; `end_scan` clears only the
buffer, leaving `cursor = 1 > 0 = len(buffer)`, so the invariant
`0 ≤ cursor ≤ len(buffer)` is not preserved by `end_scan`, and the scan is
exhausted (`iter_scan` returns the terminal `None`) while
`cursor ≠ len(buffer)`, refuting the stated iff. -/
theorem c2_end_scan_breaks_invariant :
    (let s1 := (begin_scan stub_fetch parse_one_row "abc" none (init none)).2
     let s2 := (iter_scan [text_col] s1).2
     let s3 := (end_scan s2).2
     s2.src_idx ≤ s2.src_rows.length ∧
     s3.src_idx = 1 ∧
     s3.src_rows.length = 0 ∧
     ¬ s3.src_idx ≤ s3.src_rows.length ∧
     (iter_scan [text_col] s3).1 = Except.ok none ∧
     s3.src_idx ≠ s3.src_rows.length) := by
  exact ⟨by decide, rfl, rfl, by decide, rfl, by decide⟩

/-- Claim C1 is violated by the code (the spec is the stated intent: a new
`begin` "resets the cursor to zero" with "no residue from the prior scan").
`begin_scan` never writes `src_idx`, so the cursor of any prior scan
survives: after scanning one row and ending the scan, a fresh successful
`begin_scan` that fetches two rows leaves the cursor at 1, and the first
`iter_scan` of the new scan returns the second row ("Bob"), silently
skipping the first ("Alice"). -/
theorem c1_begin_scan_keeps_stale_cursor :
    (∀ (fetch : Request → Except String (List Char))
        (parse : List Char → Except String Json) (sid : String)
        (gid : Option String) (s : SpreadsheetsFdw),
      ((begin_scan fetch parse sid gid s).2).src_idx = s.src_idx) ∧
    (let s1 := (begin_scan stub_fetch parse_one_row "abc" none (init none)).2
     let s2 := (iter_scan [text_col] s1).2
     let s3 := (end_scan s2).2
     let r := begin_scan stub_fetch parse_two_rows "abc" none s3
     r.1 = RunResult.ok () ∧
     r.2.src_rows = [row_str "Alice", row_str "Bob"] ∧
     r.2.src_idx = 1 ∧
     (iter_scan [text_col] r.2).1 = Except.ok (some [some (Cell.str "Bob")])) := by
  constructor
  · intro fetch parse sid gid s
    cases h1 : fetch (build_request s.base_url sid gid) with
    | error e => simp [begin_scan, h1]
    | ok body =>
      cases h2 : process_body parse body with
      | error e => simp [begin_scan, h1, h2]
      | ok resp_json =>
        cases h3 : extract_rows resp_json with
        | ok rows => simp [begin_scan, h1, h2, h3]
        | err e => simp [begin_scan, h1, h2, h3]
        | panic => simp [begin_scan, h1, h2, h3]
  · exact ⟨rfl, rfl, rfl, rfl⟩

/-- Function `strip_envelope` recovers exactly the remainder after the prefix. -/
theorem strip_envelope_append (p r : List Char) : strip_envelope p (p ++ r) = some r := by
  induction p with
  | nil => rfl
  | cons c cs ih => simp [strip_envelope, ih]

/-- When the prefix is absent, `strip_envelope` fails. -/
theorem strip_envelope_eq_none (p s : List Char) (h : List.isPrefixOf p s = false) :
    strip_envelope p s = none := by
  induction p generalizing s with
  | nil => simp [List.isPrefixOf] at h
  | cons c cs ih =>
    cases s with
    | nil => rfl
    | cons b bs =>
      simp only [List.isPrefixOf, Bool.and_eq_false_imp] at h
      by_cases hb : b = c
      · simp [strip_envelope, hb, ih bs (by simpa [hb] using h)]
      · simp [strip_envelope, hb]

/-- Claim C5: a response body that does not start with the 5-byte envelope
prefix makes `begin_scan` fail with the invalid-envelope error before any
JSON parsing: the outcome is the same for every parser.  When the prefix is
present, exactly the remainder after the prefix is handed to the parser. -/
theorem c5_envelope_check (parse parse2 : List Char → Except String Json)
    (body rest : List Char) (sid : String) (gid : Option String)
    (s : SpreadsheetsFdw) :
    (List.isPrefixOf envelope_magic body = false →
       begin_scan (fun _ => Except.ok body) parse sid gid s =
         (RunResult.err "invalid response", s) ∧
       process_body parse body = Except.error "invalid response" ∧
       process_body parse body = process_body parse2 body) ∧
    process_body parse (envelope_magic ++ rest) = parse rest := by
  constructor
  · intro h
    have hn : strip_envelope envelope_magic body = none :=
      strip_envelope_eq_none envelope_magic body h
    refine ⟨?_, ?_, ?_⟩
    · simp [begin_scan, process_body, hn]
    · simp [process_body, hn]
    · simp [process_body, hn]
  · simp [process_body, strip_envelope_append]

/-- Witness for claim C5: the one-byte body `x` lacks the prefix and yields
the invalid-envelope failure with the state untouched, for an arbitrary
parser stub; a prefixed body hands the remainder to the parser. -/
theorem c5_witness :
    List.isPrefixOf envelope_magic [Char.ofNat 120] = false ∧
    begin_scan (fun _ => Except.ok [Char.ofNat 120]) parse_one_row "abc" none
        (init none) = (RunResult.err "invalid response", init none) ∧
    process_body parse_one_row (envelope_magic ++ [Char.ofNat 120]) =
      parse_one_row [Char.ofNat 120] := by
  refine ⟨by decide, ?_, ?_⟩
  · exact ((c5_envelope_check parse_one_row parse_two_rows [Char.ofNat 120]
      [] "abc" none (init none)).1 (by decide)).1
  · exact (c5_envelope_check parse_one_row parse_two_rows [Char.ofNat 120]
      [Char.ofNat 120] "abc" none (init none)).2

/-- Counterexample to claim C4 as stated.  The claim says a parsed document
whose `table.rows` is present but not an array makes `begin_scan` return the
missing-rows error; on such a document the extraction instead panics (the
`unwrap()` on `as_array()`), which is neither a success nor that error. -/
theorem c4_counterexample :
    extract_rows (Json.obj [("table", Json.obj [("rows", Json.str "x")])]) =
      RunResult.panic ∧
    extract_rows (Json.obj [("table", Json.obj [("rows", Json.str "x")])]) ≠
      RunResult.err "cannot get rows from response" :=
  ⟨rfl, fun h => nomatch h⟩

/-- Claim C4 amended:  `extract_rows` returns the missing-rows error iff the
path `table.rows` is absent; a present array is extracted, and a present
non-array value panics instead of producing the error. -/
theorem c4_missing_rows_iff (doc : Json) :
    (extract_rows doc = RunResult.err "cannot get rows from response" ↔
       doc.pointer ["table", "rows"] = none) ∧
    (∀ xs, doc.pointer ["table", "rows"] = some (Json.arr xs) →
       extract_rows doc = RunResult.ok xs) ∧
    (∀ v, doc.pointer ["table", "rows"] = some v → v.as_array = none →
       extract_rows doc = RunResult.panic) := by
  cases hp : doc.pointer ["table", "rows"] with
  | none =>
    refine ⟨by simp [extract_rows, hp], ?_, ?_⟩
    · intro xs hxs
      exact absurd hxs (by simp)
    · intro v hv _
      exact absurd hv (by simp)
  | some v =>
    cases ha : v.as_array with
    | none =>
      refine ⟨by simp [extract_rows, hp, ha], ?_, ?_⟩
      · intro xs hxs
        obtain rfl : v = Json.arr xs := by simpa using hxs
        simp [Json.as_array] at ha
      · intro w hw _
        simp [extract_rows, hp, ha]
    | some xs =>
      refine ⟨by simp [extract_rows, hp, ha], ?_, ?_⟩
      · intro ys hys
        obtain rfl : v = Json.arr ys := by simpa using hys
        simp only [Json.as_array, Option.some.injEq] at ha
        subst ha
        simp [extract_rows, hp, Json.as_array]
      · intro w hw haw
        obtain rfl : v = w := by simpa using hw
        rw [haw] at ha
        exact absurd ha (by simp)

/-- Witness for claim C4 amended: an empty document yields the missing-rows
error; a document with a one-row array extracts that array. -/
theorem c4_witness :
    extract_rows (Json.obj []) = RunResult.err "cannot get rows from response" ∧
    extract_rows (doc_of_rows [row_str "Alice"]) = RunResult.ok [row_str "Alice"] :=
  ⟨(c4_missing_rows_iff (Json.obj [])).1.mpr rfl,
   (c4_missing_rows_iff (doc_of_rows [row_str "Alice"])).2.1 [row_str "Alice"] rfl⟩

/-- A column with a supported target type never makes the cell mapping
fail. -/
theorem map_cell_supported (c : Column) (row : Json)
    (h : c.type_oid = TypeOid.i64 ∨ c.type_oid = TypeOid.string) :
    ∃ cell, map_cell c row = Except.ok cell := by
  cases hp : Json.pointer row ["c", Nat.repr (c.num - 1), "v"] with
  | none => exact ⟨none, by simp [map_cell, hp]⟩
  | some src =>
    rcases h with h | h
    · exact ⟨(src.as_f64).map fun v => Cell.i64 (f64_as_i64 v),
        by simp [map_cell, hp, h]⟩
    · exact ⟨(src.as_str).map fun v => Cell.str v, by simp [map_cell, hp, h]⟩

/-- A schema whose columns all have supported target types never makes the
row projection fail. -/
theorem project_row_supported (cols : List Column) (row : Json)
    (h : ∀ c ∈ cols, c.type_oid = TypeOid.i64 ∨ c.type_oid = TypeOid.string) :
    ∃ r, project_row cols row = Except.ok r := by
  induction cols with
  | nil => exact ⟨[], rfl⟩
  | cons c cs ih =>
    obtain ⟨cell, hc⟩ := map_cell_supported c row (h c (by simp))
    obtain ⟨r, hr⟩ := ih fun d hd => h d (by simp [hd])
    exact ⟨cell :: r, by simp [project_row, hc, hr]⟩

/-- An exhausted scan returns the terminal `None` and leaves the state
unchanged. -/
theorem iter_scan_exhausted (cols : List Column) (s : SpreadsheetsFdw)
    (h : s.src_rows.length ≤ s.src_idx) :
    iter_scan cols s = (Except.ok none, s) := by
  simp [iter_scan, h]

/-- A non-exhausted scan whose projection succeeds returns the projected row
and advances the cursor by one. -/
theorem iter_scan_step (cols : List Column) (s : SpreadsheetsFdw)
    (r : List (Option Cell)) (h : s.src_idx < s.src_rows.length)
    (hp : project_row cols (s.src_rows.getD s.src_idx Json.null) = Except.ok r) :
    iter_scan cols s =
      (Except.ok (some r), { s with src_idx := s.src_idx + 1 }) := by
  unfold iter_scan
  rw [if_neg (Nat.not_le.mpr h), hp]

/-- Every call after exhaustion keeps returning the terminal `None`. -/
theorem scan_outputs_exhausted (cols : List Column) (s : SpreadsheetsFdw)
    (h : s.src_rows.length ≤ s.src_idx) (m : Nat) :
    scan_outputs cols s m = List.replicate m (Except.ok none) := by
  induction m with
  | zero => rfl
  | succ m ih =>
    simp [scan_outputs, iter_scan_exhausted cols s h, ih, List.replicate_succ]

/-- Scan trace from cursor `i`: with a supported schema, the remaining
`rows.length - i` calls return the projections of the remaining rows in
order, and the `m` calls after that return the terminal `None`. -/
theorem scan_outputs_run (cols : List Column)
    (hsup : ∀ c ∈ cols, c.type_oid = TypeOid.i64 ∨ c.type_oid = TypeOid.string)
    (base : String) (rows : List Json) :
    ∀ (k i m : Nat), i + k = rows.length →
      scan_outputs cols ⟨base, rows, i⟩ (k + m) =
        (rows.drop i).map (fun row => (project_row cols row).map some) ++
          List.replicate m (Except.ok none) := by
  intro k
  induction k with
  | zero =>
    intro i m hik
    have hdrop : rows.drop i = [] := List.drop_eq_nil_of_le (by omega)
    rw [Nat.zero_add, hdrop]
    simpa using scan_outputs_exhausted cols ⟨base, rows, i⟩ (by simp; omega) m
  | succ k ih =>
    intro i m hik
    have hi : i < rows.length := by omega
    obtain ⟨r, hr⟩ := project_row_supported cols rows[i] hsup
    have hstep : iter_scan cols ⟨base, rows, i⟩ =
        (Except.ok (some r), ⟨base, rows, i + 1⟩) :=
      iter_scan_step cols ⟨base, rows, i⟩ r (by simpa using hi)
        (by rw [List.getD_eq_getElem rows Json.null hi]; exact hr)
    have hcount : k + 1 + m = (k + m) + 1 := by omega
    have hcons : scan_outputs cols ⟨base, rows, i⟩ ((k + m) + 1) =
        Except.ok (some r) :: scan_outputs cols ⟨base, rows, i + 1⟩ (k + m) := by
      have h0 : scan_outputs cols ⟨base, rows, i⟩ ((k + m) + 1) =
          (iter_scan cols ⟨base, rows, i⟩).1 ::
            scan_outputs cols (iter_scan cols ⟨base, rows, i⟩).2 (k + m) := rfl
      rw [h0, hstep]
    rw [hcount, hcons, ih (i + 1) m (by omega), List.drop_eq_getElem_cons hi,
      List.map_cons]
    simp only [List.cons_append, hr, Except.map]

/-- Claim C3: from a buffer of `n` source rows with the cursor at zero and a
schema of supported column types, `n + m` successive `iter_scan` calls
return exactly the projection of each source row once, in order, followed by
`m` terminal `None` results; no row is skipped or duplicated, and every
projection succeeds. -/
theorem c3_iterates_each_row_once (cols : List Column) (s : SpreadsheetsFdw)
    (hsup : ∀ c ∈ cols, c.type_oid = TypeOid.i64 ∨ c.type_oid = TypeOid.string)
    (h0 : s.src_idx = 0) (m : Nat) :
    scan_outputs cols s (s.src_rows.length + m) =
      s.src_rows.map (fun row => (project_row cols row).map some) ++
        List.replicate m (Except.ok none) ∧
    ∀ row ∈ s.src_rows, ∃ r, project_row cols row = Except.ok r := by
  obtain ⟨base, rows, idx⟩ := s
  simp only at h0
  subst h0
  constructor
  · simpa using scan_outputs_run cols hsup base rows rows.length 0 m (by omega)
  · intro row _
    exact project_row_supported cols row hsup

/-- Witness for claim C3: a two-row buffer with a textual column yields the
two projected rows in order and then the terminal `None`. -/
theorem c3_witness :
    scan_outputs [text_col] ⟨"", [row_str "Alice", row_str "Bob"], 0⟩ 3 =
      [Except.ok (some [some (Cell.str "Alice")]),
       Except.ok (some [some (Cell.str "Bob")]),
       Except.ok none] := by
  have h := (c3_iterates_each_row_once [text_col]
    ⟨"", [row_str "Alice", row_str "Bob"], 0⟩ (by decide) rfl 1).1
  exact h.trans (by rfl)

/-- Claim C7: a source cell value projected onto an `I64` column: a numeric
value becomes `Cell::I64` of the value truncated toward zero (the floor for
non-negative values, the ceiling for negative ones — so `3.9` becomes `3`
and `-3.9` becomes `-3`); a non-numeric value silently projects to an
absent cell with no error. -/
theorem c7_i64_truncates_toward_zero (col : Column) (row : Json) (src : Json)
    (hoid : col.type_oid = TypeOid.i64)
    (hsrc : Json.pointer row ["c", Nat.repr (col.num - 1), "v"] = some src) :
    (∀ q : ℚ, src = Json.num q →
       map_cell col row = Except.ok (some (Cell.i64 (f64_as_i64 q))) ∧
       (0 ≤ q → f64_as_i64 q = ⌊q⌋) ∧
       (q < 0 → f64_as_i64 q = ⌈q⌉)) ∧
    (src.as_f64 = none → map_cell col row = Except.ok none) := by
  constructor
  · rintro q rfl
    refine ⟨by simp [map_cell, hsrc, hoid, Json.as_f64], ?_, ?_⟩
    · intro h
      unfold f64_as_i64
      rw [Rat.floor_def]
      exact Int.tdiv_eq_ediv (Rat.num_nonneg.mpr h) (Int.ofNat_nonneg _)
    · intro h
      unfold f64_as_i64
      have hceil : ⌈q⌉ = -⌊-q⌋ := rfl
      have hfl : ⌊-q⌋ = -q.num / (q.den : Int) := by
        rw [Rat.floor_def]
        norm_num
      have hnum : q.num ≤ 0 := le_of_lt (Rat.num_neg.mpr h)
      have hneg : (-q.num).tdiv q.den = -(q.num.tdiv q.den) :=
        Int.neg_tdiv q.num q.den
      have hed : (-q.num).tdiv q.den = -q.num / (q.den : Int) :=
        Int.tdiv_eq_ediv (by omega) (Int.ofNat_nonneg _)
      rw [hceil, hfl]
      omega
  · intro hnone
    simp [map_cell, hsrc, hoid, hnone]

/-- Witness for claim C7: `3.9` truncates to `3`, `-3.9` truncates to `-3`,
and a string cell under an `I64` column becomes an absent cell. -/
theorem c7_witness :
    map_cell ⟨1, "n", TypeOid.i64⟩ (row_num (mkRat 39 10)) =
      Except.ok (some (Cell.i64 (f64_as_i64 (mkRat 39 10)))) ∧
    f64_as_i64 (mkRat 39 10) = 3 ∧
    map_cell ⟨1, "n", TypeOid.i64⟩ (row_num (mkRat (-39) 10)) =
      Except.ok (some (Cell.i64 (f64_as_i64 (mkRat (-39) 10)))) ∧
    f64_as_i64 (mkRat (-39) 10) = -3 ∧
    map_cell ⟨1, "n", TypeOid.i64⟩ (row_str "abc") = Except.ok none := by
  refine ⟨?_, by decide, ?_, by decide, ?_⟩
  · exact ((c7_i64_truncates_toward_zero ⟨1, "n", TypeOid.i64⟩
      (row_num (mkRat 39 10)) (Json.num (mkRat 39 10)) rfl rfl).1
        (mkRat 39 10) rfl).1
  · exact ((c7_i64_truncates_toward_zero ⟨1, "n", TypeOid.i64⟩
      (row_num (mkRat (-39) 10)) (Json.num (mkRat (-39) 10)) rfl rfl).1
        (mkRat (-39) 10) rfl).1
  · exact (c7_i64_truncates_toward_zero ⟨1, "n", TypeOid.i64⟩
      (row_str "abc") (Json.str "abc") rfl rfl).2 rfl

/-- Counterexample to claim C8 as stated.  The claim includes cells whose
value is explicitly `null` (`{"v": null}`) and says they project to an
absent cell for every declared target type, including unsupported ones.  In
the code the `/c/{i}/v` lookup succeeds on such a cell, so an unsupported
column type reaches the error branch instead of pushing a null. -/
theorem c8_counterexample :
    map_cell ⟨1, "flag", TypeOid.bool⟩
        (Json.obj [("c", Json.arr [Json.obj [("v", Json.null)]])]) =
      Except.error "column flag data type is not supported" := rfl

/-- Claim C8 amended:  An absent cell (array too short, slot `null`, or any
other failing `/c/{i}/v` lookup) projects to an absent cell with no error
for every target type, including unsupported ones.  A present cell whose
value is explicitly `null` projects to an absent cell for the supported
types (`I64`, `String`), but an unsupported column type fails with the
unsupported-column error. -/
theorem c8_absent_and_null_cells (col : Column) (row : Json) :
    (Json.pointer row ["c", Nat.repr (col.num - 1), "v"] = none →
       map_cell col row = Except.ok none) ∧
    (Json.pointer row ["c", Nat.repr (col.num - 1), "v"] = some Json.null →
       ((col.type_oid = TypeOid.i64 ∨ col.type_oid = TypeOid.string) →
          map_cell col row = Except.ok none) ∧
       (col.type_oid ≠ TypeOid.i64 → col.type_oid ≠ TypeOid.string →
          map_cell col row =
            Except.error ("column " ++ col.name ++ " data type is not supported"))) := by
  constructor
  · intro hp
    simp [map_cell, hp]
  · intro hp
    constructor
    · rintro (h | h) <;> simp [map_cell, hp, h, Json.as_f64, Json.as_str]
    · intro h1 h2
      cases ho : col.type_oid <;> simp [map_cell, hp, ho] <;>
        simp [ho] at h1 h2

/-- Witness for claim C8 amended: a `null` cell slot under an unsupported
column projects to an absent cell without error, and an explicit
`{"v": null}` under a textual column projects to an absent cell. -/
theorem c8_witness :
    map_cell ⟨1, "flag", TypeOid.bool⟩ (Json.obj [("c", Json.arr [Json.null])]) =
      Except.ok none ∧
    map_cell ⟨1, "name", TypeOid.string⟩
        (Json.obj [("c", Json.arr [Json.obj [("v", Json.null)]])]) =
      Except.ok none :=
  ⟨(c8_absent_and_null_cells ⟨1, "flag", TypeOid.bool⟩
      (Json.obj [("c", Json.arr [Json.null])])).1 rfl,
   ((c8_absent_and_null_cells ⟨1, "name", TypeOid.string⟩
      (Json.obj [("c", Json.arr [Json.obj [("v", Json.null)]])])).2 rfl).1
      (Or.inr rfl)⟩

/-- Counterexample to claim C9 as stated.  The claim says an unsupported
column type fails the projection for every source row; but when the source
cell at the ordinal of that column is absent, the code pushes a null cell before
ever inspecting the type, so the projection of a row with no cells
succeeds. -/
theorem c9_counterexample :
    project_row [{ num := 1, name := "flag", type_oid := TypeOid.bool }]
        (Json.obj []) = Except.ok [none] := rfl

/-- Claim C9 amended:  The row projection fails exactly when some column with
an unsupported target type has a present source cell at its ordinal
(`/c/{num-1}/v` resolves); every error produced is the
unsupported-column-type error naming such a column.  Unsupported columns
whose cells are absent silently project to absent cells. -/
theorem c9_unsupported_type_fails_iff_cell_present (cols : List Column)
    (row : Json) :
    ((∃ e, project_row cols row = Except.error e) ↔
       ∃ c ∈ cols,
         (c.type_oid ≠ TypeOid.i64 ∧ c.type_oid ≠ TypeOid.string) ∧
         (Json.pointer row ["c", Nat.repr (c.num - 1), "v"]).isSome = true) ∧
    (∀ e, project_row cols row = Except.error e →
       ∃ c ∈ cols,
         (c.type_oid ≠ TypeOid.i64 ∧ c.type_oid ≠ TypeOid.string) ∧
         (Json.pointer row ["c", Nat.repr (c.num - 1), "v"]).isSome = true ∧
         e = "column " ++ c.name ++ " data type is not supported") := by
  induction cols with
  | nil =>
    constructor
    · simp [project_row]
    · intro e he
      exact absurd he (by simp [project_row])
  | cons c cs ih =>
    have hmc : ∀ e, map_cell c row = Except.error e ↔
        (Json.pointer row ["c", Nat.repr (c.num - 1), "v"]).isSome = true ∧
        (c.type_oid ≠ TypeOid.i64 ∧ c.type_oid ≠ TypeOid.string) ∧
        e = "column " ++ c.name ++ " data type is not supported" := by
      intro e
      cases hp : Json.pointer row ["c", Nat.repr (c.num - 1), "v"] with
      | none => simp [map_cell, hp]
      | some src =>
        cases ho : c.type_oid <;>
          simp [map_cell, hp, ho, eq_comm]
    constructor
    · constructor
      · rintro ⟨e, he⟩
        rw [project_row] at he
        cases hc : map_cell c row with
        | error e0 =>
          obtain ⟨hpre, hun, _⟩ := (hmc e0).mp hc
          exact ⟨c, by simp, hun, hpre⟩
        | ok cell =>
          rw [hc] at he
          cases hr : project_row cs row with
          | error e1 =>
            obtain ⟨d, hd, hdu, hdp⟩ := ih.1.mp ⟨e1, hr⟩
            exact ⟨d, by simp [hd], hdu, hdp⟩
          | ok rest => rw [hr] at he; exact absurd he (by simp)
      · rintro ⟨d, hd, hdu, hdp⟩
        rw [List.mem_cons] at hd
        cases hd with
        | inl hd =>
          subst hd
          refine ⟨"column " ++ d.name ++ " data type is not supported", ?_⟩
          rw [project_row, (hmc _).mpr ⟨hdp, hdu, rfl⟩]
        | inr hd =>
          cases hc : map_cell c row with
          | error e0 =>
            exact ⟨e0, by rw [project_row, hc]⟩
          | ok cell =>
            obtain ⟨e1, he1⟩ := ih.1.mpr ⟨d, hd, hdu, hdp⟩
            exact ⟨e1, by rw [project_row, hc, he1]⟩
    · intro e he
      rw [project_row] at he
      cases hc : map_cell c row with
      | error e0 =>
        rw [hc] at he
        obtain rfl : e0 = e := by simpa using he
        obtain ⟨hpre, hun, hmsg⟩ := (hmc e0).mp hc
        exact ⟨c, by simp, hun, hpre, hmsg⟩
      | ok cell =>
        rw [hc] at he
        cases hr : project_row cs row with
        | error e1 =>
          rw [hr] at he
          obtain rfl : e1 = e := by simpa using he
          obtain ⟨d, hd, hdu, hdp, hdm⟩ := ih.2 e1 hr
          exact ⟨d, by simp [hd], hdu, hdp, hdm⟩
        | ok rest => rw [hr] at he; exact absurd he (by simp)

/-- Witness for claim C9 amended: a schema with a textual column and an
unsupported boolean column fails on a row where the cell of the boolean column
is present, even though the textual column would have projected. -/
theorem c9_witness :
    ∃ e, project_row
        [text_col, { num := 2, name := "flag", type_oid := TypeOid.bool }]
        (Json.obj [("c", Json.arr [Json.obj [("v", Json.str "Alice")],
          Json.obj [("v", Json.bool true)]])]) = Except.error e :=
  (c9_unsupported_type_fails_iff_cell_present
      [text_col, { num := 2, name := "flag", type_oid := TypeOid.bool }]
      (Json.obj [("c", Json.arr [Json.obj [("v", Json.str "Alice")],
        Json.obj [("v", Json.bool true)]])])).1.mpr
    ⟨{ num := 2, name := "flag", type_oid := TypeOid.bool }, by decide,
      ⟨by decide, by decide⟩, rfl⟩

end SheetsFdw
